import Mathlib

/-!
Verification development for the EV Charging Optimization dashboard
(single Python/streamlit source file `dv project.py`).

We shallowly embed the data model (one `Row` per charging session, a
`Dataset` as an ordered list of rows), the per-page tariff constants and
classification branches, the What-If cost computation, and the pandas
aggregations the pages use (mean, value counts, grouped sums, idxmax,
pivot table with reindexing).  Money rates are embedded as rationals
(0.60 becomes 60/100 and so on); pandas NaN results are `Option.none`;
a pandas exception (ValueError from `idxmax` on an empty series) is an
`Except.error`.
-/

/-- One charging-session record, mirroring the CSV columns used by the
pages: `timestamp` (already parsed, `none` for NaT), `hour`, `day`,
`location`, `charger_type`, `kWh_used`, `estimated_cost_RM`. -/
structure Row where
  timestamp : Option Nat
  hour : Nat
  day : String
  location : String
  charger_type : String
  kWh_used : ℚ
  estimated_cost_RM : ℚ
deriving DecidableEq

/-- A Dataset is the ordered collection of session rows. -/
abbrev Dataset := List Row

/-! Prediction page tariff constants: `peak_start, peak_end = 19, 22` and
`peak_rate, offpeak_rate = 0.60, 0.40`. -/

def prediction_peak_start : Nat := 19

def prediction_peak_end : Nat := 22

def prediction_peak_rate : ℚ := 60 / 100

def prediction_offpeak_rate : ℚ := 40 / 100

/-- Prediction page branch condition `peak_start <= selected_hour <= peak_end`
(inclusive on both ends). -/
def predictionIsPeak (h : Nat) : Bool :=
  decide (prediction_peak_start ≤ h) && decide (h ≤ prediction_peak_end)

/-- The tariff the Prediction page displays for a selected hour: the
`cost` variable set in the if/else branches. -/
def predictionRate (h : Nat) : ℚ :=
  if predictionIsPeak h then prediction_peak_rate else prediction_offpeak_rate

/-! Alerts & What-If page tariff constants: `peak_start, peak_end = 18, 22`
and `peak_cost, offpeak_cost = 0.60, 0.35`. -/

def alerts_peak_start : Nat := 18

def alerts_peak_end : Nat := 22

def alerts_peak_cost : ℚ := 60 / 100

def alerts_offpeak_cost : ℚ := 35 / 100

/-- Alerts page branch condition `peak_start <= selected_time < peak_end`
(inclusive start, exclusive end). -/
def alertsIsPeak (h : Nat) : Bool :=
  decide (alerts_peak_start ≤ h) && decide (h < alerts_peak_end)

/-- The per-kWh cost the Alerts page displays for a selected hour. -/
def alertsRate (h : Nat) : ℚ :=
  if alertsIsPeak h then alerts_peak_cost else alerts_offpeak_cost

/-- What-If Cost Simulator:
`cost = kwh * (peak_cost if peak_start <= hour < peak_end else offpeak_cost)`.
The slider constrains `hour` to 0..23 and the numeric input constrains
`kwh` to 1..100; the underlying value is not rounded (only the displayed
string is formatted to two decimals). -/
def whatIfCost (hour kwh : Nat) : ℚ :=
  kwh * (if alertsIsPeak hour then alerts_peak_cost else alerts_offpeak_cost)

/-- C1: On the Prediction page, for every hour h in [0,23], the hour is
classified PEAK iff 19 ≤ h ≤ 22 (inclusive both ends); a PEAK hour shows
rate 0.60 RM/kWh and an OFF-PEAK hour shows 0.40 RM/kWh; in particular
h = 19 and h = 22 are PEAK and h = 23 is OFF-PEAK. -/
theorem prediction_page_classification (h : Nat) (hh : h ≤ 23) :
    (predictionIsPeak h = true ↔ (19 ≤ h ∧ h ≤ 22)) ∧
    (predictionIsPeak h = true → predictionRate h = 60 / 100) ∧
    (predictionIsPeak h = false → predictionRate h = 40 / 100) ∧
    predictionIsPeak 19 = true ∧ predictionIsPeak 22 = true ∧
    predictionIsPeak 23 = false := by
  refine ⟨?_, ?_, ?_, by decide, by decide, by decide⟩
  · simp [predictionIsPeak, prediction_peak_start, prediction_peak_end]
  · intro hp
    simp [predictionRate, hp, prediction_peak_rate]
  · intro hp
    simp [predictionRate, hp, prediction_offpeak_rate]

/-- Witness for C1 at the concrete hour 19. -/
theorem prediction_page_classification_witness :
    19 ≤ 23 ∧
    ((predictionIsPeak 19 = true ↔ (19 ≤ 19 ∧ 19 ≤ 22)) ∧
      (predictionIsPeak 19 = true → predictionRate 19 = 60 / 100) ∧
      (predictionIsPeak 19 = false → predictionRate 19 = 40 / 100) ∧
      predictionIsPeak 19 = true ∧ predictionIsPeak 22 = true ∧
      predictionIsPeak 23 = false) :=
  ⟨by decide, prediction_page_classification 19 (by decide)⟩

/-- C2: On the Alerts & What-If page, for every hour h in [0,23], the hour
is classified PEAK iff 18 ≤ h < 22 (inclusive start, exclusive end); PEAK
shows 0.60 RM/kWh and OFF-PEAK otherwise; in particular h = 18 is PEAK
with rate 0.60, h = 22 is OFF-PEAK, and the estimated cost for 30 kWh at
hour 18 is 18.00 RM. -/
theorem alerts_page_classification (h : Nat) (hh : h ≤ 23) :
    (alertsIsPeak h = true ↔ (18 ≤ h ∧ h < 22)) ∧
    (alertsIsPeak h = true → alertsRate h = 60 / 100) ∧
    (alertsIsPeak h = false → alertsRate h = 35 / 100) ∧
    alertsIsPeak 18 = true ∧ alertsRate 18 = 60 / 100 ∧
    alertsIsPeak 22 = false ∧ whatIfCost 18 30 = 18 := by
  refine ⟨?_, ?_, ?_, by decide, ?_, by decide, ?_⟩
  · simp [alertsIsPeak, alerts_peak_start, alerts_peak_end]
  · intro hp
    simp [alertsRate, hp, alerts_peak_cost]
  · intro hp
    simp [alertsRate, hp, alerts_offpeak_cost]
  · norm_num [alertsRate, alertsIsPeak, alerts_peak_start, alerts_peak_end,
      alerts_peak_cost]
  · norm_num [whatIfCost, alertsIsPeak, alerts_peak_start, alerts_peak_end,
      alerts_peak_cost]

/-- Witness for C2 at the concrete hour 18. -/
theorem alerts_page_classification_witness :
    18 ≤ 23 ∧
    ((alertsIsPeak 18 = true ↔ (18 ≤ 18 ∧ 18 < 22)) ∧
      (alertsIsPeak 18 = true → alertsRate 18 = 60 / 100) ∧
      (alertsIsPeak 18 = false → alertsRate 18 = 35 / 100) ∧
      alertsIsPeak 18 = true ∧ alertsRate 18 = 60 / 100 ∧
      alertsIsPeak 22 = false ∧ whatIfCost 18 30 = 18) :=
  ⟨by decide, alerts_page_classification 18 (by decide)⟩

/-- C3: The What-If cost estimate is `kwh * rate(hour)` with no rounding
of the underlying value, hence linear in kwh for a fixed hour: for every
hour in [0,23] and kwh in [1,100] with 2*kwh also in range,
`whatIfCost hour (2*kwh) = 2 * whatIfCost hour kwh`. -/
theorem whatIfCost_linear (hour kwh : Nat) (hh : hour ≤ 23)
    (hk1 : 1 ≤ kwh) (hk2 : 2 * kwh ≤ 100) :
    whatIfCost hour (2 * kwh) = 2 * whatIfCost hour kwh := by
  unfold whatIfCost
  push_cast
  ring

/-- Witness for C3 at hour 10, kwh 30. -/
theorem whatIfCost_linear_witness :
    10 ≤ 23 ∧ 1 ≤ 30 ∧ 2 * 30 ≤ 100 ∧
    whatIfCost 10 (2 * 30) = 2 * whatIfCost 10 30 :=
  ⟨by decide, by decide, by decide,
    whatIfCost_linear 10 30 (by decide) (by decide) (by decide)⟩

/-- C10: For every hour both pages classify as OFF-PEAK (exactly the
hours h ≤ 17 together with h = 23), the Prediction page shows a rate of
0.40 RM/kWh while the Alerts & What-If page shows 0.35 RM/kWh, so the two
pages never agree on the off-peak tariff. -/
theorem offpeak_rates_disagree (h : Nat) (hh : h ≤ 23)
    (hoff : predictionIsPeak h = false ∧ alertsIsPeak h = false) :
    (h ≤ 17 ∨ h = 23) ∧
    predictionRate h = 40 / 100 ∧ alertsRate h = 35 / 100 ∧
    predictionRate h ≠ alertsRate h := by
  obtain ⟨hp, ha⟩ := hoff
  have hp' : ¬ (19 ≤ h ∧ h ≤ 22) := by
    simpa [predictionIsPeak, prediction_peak_start, prediction_peak_end] using hp
  have ha' : ¬ (18 ≤ h ∧ h < 22) := by
    simpa [alertsIsPeak, alerts_peak_start, alerts_peak_end] using ha
  refine ⟨by omega, ?_, ?_, ?_⟩
  · simp [predictionRate, hp, prediction_offpeak_rate]
  · simp [alertsRate, ha, alerts_offpeak_cost]
  · simp only [predictionRate, alertsRate, hp, ha, Bool.false_eq_true,
      if_false, prediction_offpeak_rate, alerts_offpeak_cost]
    norm_num

/-- Witness for C10 at the concrete hour 5. -/
theorem offpeak_rates_disagree_witness :
    5 ≤ 23 ∧ (predictionIsPeak 5 = false ∧ alertsIsPeak 5 = false) ∧
    ((5 ≤ 17 ∨ 5 = 23) ∧
      predictionRate 5 = 40 / 100 ∧ alertsRate 5 = 35 / 100 ∧
      predictionRate 5 ≠ alertsRate 5) :=
  ⟨by decide, by decide,
    offpeak_rates_disagree 5 (by decide) (by decide)⟩

/-! Aggregation utilities used by the Dashboard, Report Summary and
Charging Planner pages, embedded from the pandas expressions in the
source.  `Option.none` models a NaN result; `Except.error` models a
raised ValueError. -/

/-- Mean of a numeric series; `none` models pandas returning NaN on an
empty series (`Series.mean()` does not raise). -/
def seriesMean (l : List ℚ) : Option ℚ :=
  if l.length = 0 then none else some (l.sum / l.length)

/-- Running scan for `idxmax`: keeps the first pair whose value is
maximal (a later pair replaces the current one only when strictly
greater, matching pandas first-occurrence tie-breaking). -/
def idxmaxGo {α β : Type} [LinearOrder β] : α × β → List (α × β) → α × β
  | p, [] => p
  | p, q :: rest => if p.2 < q.2 then idxmaxGo q rest else idxmaxGo p rest

/-- pandas `Series.idxmax()`: the first key whose value is maximal; on an
empty series it raises ValueError, modelled as `Except.error`. -/
def idxmax {α β : Type} [LinearOrder β] : List (α × β) → Except String α
  | [] => Except.error "attempt to get argmax of an empty sequence"
  | p :: rest => Except.ok (idxmaxGo p rest).1

/-- pandas `Series.value_counts()`: one entry per distinct value with its
occurrence count, ordered by count descending. -/
def value_counts (l : List String) : List (String × Nat) :=
  List.insertionSort (fun p q => q.2 ≤ p.2) (l.dedup.map (fun v => (v, l.count v)))

/-- Dashboard KPI `peak_hour = 20`: a hardcoded literal, not derived from
the DataFrame. -/
def dashboard_peak_hour (_ds : Dataset) : Nat := 20

/-- Dashboard KPI `avg_cost = df["estimated_cost_RM"].mean()`. -/
def avg_cost (ds : Dataset) : Option ℚ :=
  seriesMean (ds.map Row.estimated_cost_RM)

/-- Dashboard KPI `top_city = df["location"].value_counts().idxmax()`. -/
def top_city (ds : Dataset) : Except String String :=
  idxmax (value_counts (ds.map Row.location))

/-- Dashboard chart series `hourly = df["hour"].value_counts().sort_index()`:
one (hour, count) entry per distinct hour, ordered by hour ascending. -/
def countByHour (ds : Dataset) : List (Nat × Nat) :=
  (List.insertionSort (· ≤ ·) (ds.map Row.hour).dedup).map
    (fun h => (h, (ds.map Row.hour).count h))

/-- Report Summary `avg_consumption = df['kWh_used'].mean()`. -/
def avg_consumption (ds : Dataset) : Option ℚ :=
  seriesMean (ds.map Row.kWh_used)

/-- Total kWh of the rows falling in one hour group. -/
def hourKwhSum (ds : Dataset) (h : Nat) : ℚ :=
  ((ds.filter (fun r => r.hour == h)).map Row.kWh_used).sum

/-- Report Summary grouped sums `df.groupby('hour')['kWh_used'].sum()`:
one (hour, summed kWh) entry per distinct hour, keys sorted ascending as
pandas groupby does. -/
def hourKwhSums (ds : Dataset) : List (Nat × ℚ) :=
  (List.insertionSort (· ≤ ·) (ds.map Row.hour).dedup).map
    (fun h => (h, hourKwhSum ds h))

/-- Report Summary `peak_hours = df.groupby('hour')['kWh_used'].sum().idxmax()`. -/
def peak_hours (ds : Dataset) : Except String Nat :=
  idxmax (hourKwhSums ds)

/-- Report Summary
`fast_usage = df[df['charger_type'] == 'Fast Charger']['kWh_used'].sum()`. -/
def fast_usage (ds : Dataset) : ℚ :=
  ((ds.filter (fun r => r.charger_type == "Fast Charger")).map Row.kWh_used).sum

/-- Report Summary
`normal_usage = df[df['charger_type'] == 'Normal Charger']['kWh_used'].sum()`. -/
def normal_usage (ds : Dataset) : ℚ :=
  ((ds.filter (fun r => r.charger_type == "Normal Charger")).map Row.kWh_used).sum

/-- Total kWh of the rows falling in one location group. -/
def locationKwhSum (ds : Dataset) (l : String) : ℚ :=
  ((ds.filter (fun r => r.location == l)).map Row.kWh_used).sum

/-- Report Summary grouped sums `df.groupby('location')['kWh_used'].sum()`. -/
def locationKwhSums (ds : Dataset) : List (String × ℚ) :=
  (List.insertionSort (· ≤ ·) (ds.map Row.location).dedup).map
    (fun l => (l, locationKwhSum ds l))

/-- Report Summary
`top_location = df.groupby('location')['kWh_used'].sum().idxmax()`. -/
def top_location (ds : Dataset) : Except String String :=
  idxmax (locationKwhSums ds)

/-- Charging Planner
`normal_cost = df[df['charger_type'] == 'Normal Charger']['estimated_cost_RM'].mean()`. -/
def normal_cost (ds : Dataset) : Option ℚ :=
  seriesMean ((ds.filter (fun r => r.charger_type == "Normal Charger")).map
    Row.estimated_cost_RM)

/-- Charging Planner
`fast_cost = df[df['charger_type'] == 'Fast Charger']['estimated_cost_RM'].mean()`. -/
def fast_cost (ds : Dataset) : Option ℚ :=
  seriesMean ((ds.filter (fun r => r.charger_type == "Fast Charger")).map
    Row.estimated_cost_RM)

/-! Dashboard heatmap pivot:
`pivot = df.pivot_table(values="kWh_used", index="day", columns="hour", aggfunc="mean")`
followed by `pivot.reindex(ordered_days)`. -/

def ordered_days : List String :=
  ["Monday", "Tuesday", "Wednesday", "Thursday", "Friday", "Saturday", "Sunday"]

/-- One pivot cell: mean kWh over the rows with the given day and hour;
`none` (NaN) when no row matches. -/
def pivotCells (ds : Dataset) (d : String) (h : Nat) : Option ℚ :=
  seriesMean ((ds.filter (fun r => r.day == d && r.hour == h)).map Row.kWh_used)

/-- `pivot_table`: one row per distinct day present in the data, row keys
sorted as pandas groupby sorts them. -/
def pivot_table (ds : Dataset) : List (String × (Nat → Option ℚ)) :=
  (List.insertionSort (· ≤ ·) (ds.map Row.day).dedup).map
    (fun d => (d, pivotCells ds d))

/-- `DataFrame.reindex(labels)`: one row per requested label in the
requested order; a label absent from the frame gets an all-NaN row. -/
def reindex (rows : List (String × (Nat → Option ℚ))) (labels : List String) :
    List (String × (Nat → Option ℚ)) :=
  labels.map (fun l => (l, (rows.lookup l).getD (fun _ => none)))

/-- The heatmap matrix: pivot table reindexed to Monday..Sunday. -/
def pivotMeanKwh (ds : Dataset) : List (String × (Nat → Option ℚ)) :=
  reindex (pivot_table ds) ordered_days

/-- Cell of the reindexed matrix at a given day row and hour column
(`none` when the row is missing or the cell is NaN). -/
def pivotRowCell (ds : Dataset) (d : String) (h : Nat) : Option ℚ :=
  match (pivotMeanKwh ds).lookup d with
  | some c => c h
  | none => none

/-- Row constructor used for concrete example datasets. -/
def mkRow (hour : Nat) (day locn ct : String) (kwh cost : ℚ) : Row :=
  { timestamp := none, hour := hour, day := day, location := locn,
    charger_type := ct, kWh_used := kwh, estimated_cost_RM := cost }

/-- C6: for every Dataset with N rows, the sessions-by-hour counts sum to
N across all hour buckets, and the entries are ordered by hour strictly
ascending. -/
theorem countByHour_total_and_sorted (ds : Dataset) :
    ((countByHour ds).map Prod.snd).sum = ds.length ∧
    List.Sorted (· < ·) ((countByHour ds).map Prod.fst) := by
  have hperm : List.Perm (List.insertionSort (· ≤ ·) (ds.map Row.hour).dedup)
      (ds.map Row.hour).dedup := List.perm_insertionSort _ _
  constructor
  · have h1 : ((countByHour ds).map Prod.snd) =
        (List.insertionSort (· ≤ ·) (ds.map Row.hour).dedup).map
          (fun h => (ds.map Row.hour).count h) := by
      simp [countByHour, List.map_map, Function.comp]
    rw [h1, (hperm.map (fun h => (ds.map Row.hour).count h)).sum_eq,
      List.sum_map_count_dedup_eq_length, List.length_map]
  · have hk : ((countByHour ds).map Prod.fst) =
        List.insertionSort (· ≤ ·) (ds.map Row.hour).dedup := by
      simp [countByHour, List.map_map, Function.comp_def]
    rw [hk]
    exact (List.sorted_insertionSort _ _).lt_of_le
      (hperm.nodup_iff.mpr ((ds.map Row.hour).nodup_dedup))

/-- Concrete single-row dataset whose data-derived peak hour is 5. -/
def peakHourExampleDs : Dataset :=
  [mkRow 5 "Monday" "Kuala Lumpur" "Fast Charger" 10 6]

/-- C7: the Dashboard's Peak Hour KPI is the constant 20 for every pair
of Datasets (it does not depend on the data), while the Report Summary
peak hour is data-derived: on a concrete dataset it equals 5, which
differs from 20. -/
theorem dashboard_peak_hour_constant (ds₁ ds₂ : Dataset) :
    dashboard_peak_hour ds₁ = dashboard_peak_hour ds₂ ∧
    dashboard_peak_hour ds₁ = 20 ∧
    peak_hours peakHourExampleDs = Except.ok 5 ∧ (5 : Nat) ≠ 20 :=
  ⟨rfl, rfl, rfl, by decide⟩

/-- C4 counterexample: on the empty Dataset the Dashboard's most-frequent
location aggregation `value_counts().idxmax()` raises a ValueError
(modelled as `Except.error`) instead of yielding a defined no-data
result, so not every page aggregation is raise-free on empty input. -/
theorem empty_mode_raises :
    top_city ([] : Dataset) =
      Except.error "attempt to get argmax of an empty sequence" := rfl

/-- C4 amended: on the empty Dataset the mean aggregations yield NaN
(`none`) without raising, the hourly counts and per-charger-type sums
yield an empty mapping and zero, and the pivot still has its seven
all-NaN day rows; but the mode of location and the per-hour and
per-location argmaxes raise a ValueError. -/
theorem empty_dataset_aggregations :
    avg_cost ([] : Dataset) = none ∧
    avg_consumption ([] : Dataset) = none ∧
    countByHour ([] : Dataset) = [] ∧
    fast_usage ([] : Dataset) = 0 ∧
    normal_usage ([] : Dataset) = 0 ∧
    normal_cost ([] : Dataset) = none ∧
    fast_cost ([] : Dataset) = none ∧
    (pivotMeanKwh ([] : Dataset)).map Prod.fst = ordered_days ∧
    pivotRowCell ([] : Dataset) "Monday" 20 = none ∧
    top_city ([] : Dataset) =
      Except.error "attempt to get argmax of an empty sequence" ∧
    peak_hours ([] : Dataset) =
      Except.error "attempt to get argmax of an empty sequence" ∧
    top_location ([] : Dataset) =
      Except.error "attempt to get argmax of an empty sequence" :=
  ⟨rfl, rfl, rfl, rfl, rfl, rfl, rfl, rfl, rfl, rfl, rfl, rfl⟩

/-- Looking up a key in an association list built by pairing each key of
a key list with a key-indexed value returns that key's value. -/
theorem lookup_map_pair {α β : Type} [BEq α] [LawfulBEq α] (f : α → β)
    (keys : List α) (d : α) (c : β)
    (h : (keys.map (fun k => (k, f k))).lookup d = some c) : c = f d := by
  induction keys with
  | nil => simp [List.lookup] at h
  | cons k ks ih =>
    rw [List.map_cons, List.lookup_cons] at h
    by_cases hk : d = k
    · subst hk
      simp at h
      exact h.symm
    · have hbeq : (d == k) = false := beq_eq_false_iff_ne.mpr hk
      rw [hbeq] at h
      exact ih h

/-- C5: for every Dataset the reindexed heatmap matrix has its day rows
in exactly the order Monday..Sunday regardless of input row order, and a
(day, hour) combination matched by no row yields a NaN (no data) cell
rather than zero. -/
theorem pivot_rows_ordered_and_no_data (ds : Dataset) (d : String) (h : Nat)
    (hemp : ds.filter (fun r => r.day == d && r.hour == h) = []) :
    (pivotMeanKwh ds).map Prod.fst = ordered_days ∧
    pivotRowCell ds d h = none := by
  constructor
  · simp [pivotMeanKwh, reindex, List.map_map, Function.comp_def]
  · unfold pivotRowCell
    cases hl : (pivotMeanKwh ds).lookup d with
    | none => rfl
    | some c =>
      have hc : c = ((pivot_table ds).lookup d).getD (fun _ => none) := by
        unfold pivotMeanKwh reindex at hl
        exact lookup_map_pair _ ordered_days d c hl
      cases hp : (pivot_table ds).lookup d with
      | none =>
        rw [hc, hp]
        rfl
      | some c2 =>
        have hc2 : c2 = pivotCells ds d := by
          unfold pivot_table at hp
          exact lookup_map_pair _ _ d c2 hp
        rw [hc, hp, Option.getD_some, hc2]
        simp [pivotCells, hemp, seriesMean]

/-- Witness for C5 on the empty Dataset at the cell (Monday, 0). -/
theorem pivot_rows_ordered_and_no_data_witness :
    ([] : Dataset).filter (fun r => r.day == "Monday" && r.hour == 0) = [] ∧
    ((pivotMeanKwh ([] : Dataset)).map Prod.fst = ordered_days ∧
      pivotRowCell ([] : Dataset) "Monday" 0 = none) :=
  ⟨rfl, pivot_rows_ordered_and_no_data [] "Monday" 0 rfl⟩

/-- The running-maximum scan returns one of its candidates. -/
theorem idxmaxGo_mem {α β : Type} [LinearOrder β] (l : List (α × β)) (p : α × β) :
    idxmaxGo p l ∈ p :: l := by
  induction l generalizing p with
  | nil => simp [idxmaxGo]
  | cons q rest ih =>
    by_cases hlt : p.2 < q.2
    · rw [show idxmaxGo p (q :: rest) = idxmaxGo q rest by simp [idxmaxGo, hlt]]
      have h2 := ih q
      simp only [List.mem_cons] at h2 ⊢
      tauto
    · rw [show idxmaxGo p (q :: rest) = idxmaxGo p rest by simp [idxmaxGo, hlt]]
      have h2 := ih p
      simp only [List.mem_cons] at h2 ⊢
      tauto

/-- Every candidate's value is at most the scan result's value. -/
theorem idxmaxGo_le {α β : Type} [LinearOrder β] (l : List (α × β)) :
    ∀ p q : α × β, q ∈ p :: l → q.2 ≤ (idxmaxGo p l).2 := by
  induction l with
  | nil =>
    intro p q hq
    simp only [List.mem_cons, List.not_mem_nil, or_false] at hq
    subst hq
    simp [idxmaxGo]
  | cons q0 rest ih =>
    intro p q hq
    by_cases hlt : p.2 < q0.2
    · rw [show idxmaxGo p (q0 :: rest) = idxmaxGo q0 rest by simp [idxmaxGo, hlt]]
      rcases List.mem_cons.mp hq with h1 | hq2
      · rw [h1]
        exact le_trans (le_of_lt hlt) (ih q0 q0 (List.mem_cons_self _ _))
      · exact ih q0 q hq2
    · rw [show idxmaxGo p (q0 :: rest) = idxmaxGo p rest by simp [idxmaxGo, hlt]]
      rcases List.mem_cons.mp hq with h1 | hq2
      · rw [h1]
        exact ih p p (List.mem_cons_self _ _)
      · rcases List.mem_cons.mp hq2 with h2 | hq3
        · rw [h2]
          exact le_trans (not_lt.mp hlt) (ih p p (List.mem_cons_self _ _))
        · exact ih p q (List.mem_cons_of_mem _ hq3)

/-- `idxmax` correctness: an `ok` result is a key of the series whose
value is greater than or equal to every value of the series. -/
theorem idxmax_spec {α β : Type} [LinearOrder β] (l : List (α × β)) (a : α)
    (h : idxmax l = Except.ok a) : ∃ v, (a, v) ∈ l ∧ ∀ q ∈ l, q.2 ≤ v := by
  cases l with
  | nil => simp [idxmax] at h
  | cons p rest =>
    have ha : (idxmaxGo p rest).1 = a := by
      simpa [idxmax] using h
    refine ⟨(idxmaxGo p rest).2, ?_, ?_⟩
    · have hm := idxmaxGo_mem rest p
      rw [← ha]
      simpa using hm
    · intro q hq
      exact idxmaxGo_le rest p q hq

/-- Membership in an association list built from a key list by a
key-indexed value function determines the value. -/
theorem mem_map_pair {α β : Type} (f : α → β) (keys : List α) (a : α) (v : β)
    (h : (a, v) ∈ keys.map (fun k => (k, f k))) : a ∈ keys ∧ v = f a := by
  rcases List.mem_map.mp h with ⟨k, hk, heq⟩
  rw [Prod.mk.injEq] at heq
  obtain ⟨rfl, rfl⟩ := heq
  exact ⟨hk, rfl⟩

/-- Concrete two-row example dataset from the spec's test scenario. -/
def reportExampleDs : Dataset :=
  [mkRow 20 "Monday" "Kuala Lumpur" "Fast Charger" 10 6,
    mkRow 8 "Tuesday" "Penang" "Normal Charger" 5 2]

/-- C9: the Report Summary insights are the stated aggregations: the
peak hour is an hour occurring in the data maximizing the grouped kWh
sum, the top location likewise maximizes the per-location kWh sum, the
average consumption times the row count equals the total kWh, and on the
concrete two-row example the per-charger-type sums are 10 and 5. -/
theorem report_summary_insights (ds : Dataset) (h : Nat) (loc : String)
    (hph : peak_hours ds = Except.ok h)
    (htl : top_location ds = Except.ok loc) :
    (h ∈ ds.map Row.hour ∧
      ∀ h2 ∈ ds.map Row.hour, hourKwhSum ds h2 ≤ hourKwhSum ds h) ∧
    (loc ∈ ds.map Row.location ∧
      ∀ l2 ∈ ds.map Row.location,
        locationKwhSum ds l2 ≤ locationKwhSum ds loc) ∧
    (∀ m, avg_consumption ds = some m →
      m * (ds.length : ℚ) = (ds.map Row.kWh_used).sum) ∧
    fast_usage reportExampleDs = 10 ∧ normal_usage reportExampleDs = 5 := by
  refine ⟨?_, ?_, ?_,
    by simp +decide [fast_usage, reportExampleDs, mkRow, List.filter_cons],
    by simp +decide [normal_usage, reportExampleDs, mkRow, List.filter_cons]⟩
  · unfold peak_hours at hph
    obtain ⟨v, hv, hmax⟩ := idxmax_spec _ _ hph
    unfold hourKwhSums at hv
    obtain ⟨hkmem, rfl⟩ := mem_map_pair _ _ _ _ hv
    have hkeys : ∀ x : Nat,
        x ∈ List.insertionSort (· ≤ ·) (ds.map Row.hour).dedup ↔
          x ∈ ds.map Row.hour := by
      intro x
      rw [(List.perm_insertionSort _ _).mem_iff, List.mem_dedup]
    refine ⟨(hkeys h).mp hkmem, ?_⟩
    intro h2 hh2
    have hmem : (h2, hourKwhSum ds h2) ∈ hourKwhSums ds := by
      unfold hourKwhSums
      exact List.mem_map.mpr ⟨h2, (hkeys h2).mpr hh2, rfl⟩
    unfold hourKwhSums at hmem
    exact hmax _ hmem
  · unfold top_location at htl
    obtain ⟨v, hv, hmax⟩ := idxmax_spec _ _ htl
    unfold locationKwhSums at hv
    obtain ⟨hkmem, rfl⟩ := mem_map_pair _ _ _ _ hv
    have hkeys : ∀ x : String,
        x ∈ List.insertionSort (· ≤ ·) (ds.map Row.location).dedup ↔
          x ∈ ds.map Row.location := by
      intro x
      rw [(List.perm_insertionSort _ _).mem_iff, List.mem_dedup]
    refine ⟨(hkeys loc).mp hkmem, ?_⟩
    intro l2 hl2
    have hmem : (l2, locationKwhSum ds l2) ∈ locationKwhSums ds := by
      unfold locationKwhSums
      exact List.mem_map.mpr ⟨l2, (hkeys l2).mpr hl2, rfl⟩
    unfold locationKwhSums at hmem
    exact hmax _ hmem
  · intro m hm
    unfold avg_consumption seriesMean at hm
    rw [List.length_map] at hm
    by_cases h0 : ds.length = 0
    · rw [if_pos h0] at hm
      cases hm
    · rw [if_neg h0] at hm
      obtain rfl := (Option.some.injEq _ _).mp hm
      have hne : (ds.length : ℚ) ≠ 0 := Nat.cast_ne_zero.mpr h0
      field_simp

/-- Witness for C9 on the concrete two-row example dataset, whose peak
hour is 20 and top location is Kuala Lumpur. -/
theorem report_summary_insights_witness :
    peak_hours reportExampleDs = Except.ok 20 ∧
    top_location reportExampleDs = Except.ok "Kuala Lumpur" ∧
    ((20 ∈ reportExampleDs.map Row.hour ∧
      ∀ h2 ∈ reportExampleDs.map Row.hour,
        hourKwhSum reportExampleDs h2 ≤ hourKwhSum reportExampleDs 20) ∧
    ("Kuala Lumpur" ∈ reportExampleDs.map Row.location ∧
      ∀ l2 ∈ reportExampleDs.map Row.location,
        locationKwhSum reportExampleDs l2 ≤
          locationKwhSum reportExampleDs "Kuala Lumpur") ∧
    (∀ m, avg_consumption reportExampleDs = some m →
      m * (reportExampleDs.length : ℚ) =
        (reportExampleDs.map Row.kWh_used).sum) ∧
    fast_usage reportExampleDs = 10 ∧ normal_usage reportExampleDs = 5) :=
  ⟨by simp +decide [peak_hours, reportExampleDs, mkRow, hourKwhSums,
      hourKwhSum, List.dedup_cons_of_not_mem, List.insertionSort,
      List.orderedInsert, List.filter_cons, idxmax, idxmaxGo],
    by simp +decide [top_location, reportExampleDs, mkRow, locationKwhSums,
      locationKwhSum, List.dedup_cons_of_not_mem, List.insertionSort,
      List.orderedInsert, List.filter_cons, idxmax, idxmaxGo],
    report_summary_insights reportExampleDs 20 "Kuala Lumpur"
      (by simp +decide [peak_hours, reportExampleDs, mkRow, hourKwhSums,
        hourKwhSum, List.dedup_cons_of_not_mem, List.insertionSort,
        List.orderedInsert, List.filter_cons, idxmax, idxmaxGo])
      (by simp +decide [top_location, reportExampleDs, mkRow, locationKwhSums,
        locationKwhSum, List.dedup_cons_of_not_mem, List.insertionSort,
        List.orderedInsert, List.filter_cons, idxmax, idxmaxGo])⟩

/-! Data loading (`load_data`): the CSV is read and
`pd.to_datetime(df["timestamp"], dayfirst=True, errors="coerce")` replaces
the timestamp column; a string that does not parse becomes NaT and the
row is kept. -/

/-- Raw CSV row, before the timestamp column is coerced: the timestamp is
still the CSV string. -/
structure RawRow where
  timestamp : String
  hour : Nat
  day : String
  location : String
  charger_type : String
  kWh_used : ℚ
  estimated_cost_RM : ℚ
deriving DecidableEq

/-- Split a character list at every occurrence of a separator character
(the list-of-fields view of `String.splitOn`). -/
def splitOnChar (c : Char) : List Char → List (List Char)
  | [] => [[]]
  | x :: xs =>
    match splitOnChar c xs with
    | [] => if x = c then [[], [x]] else [[x]]
    | fieldHd :: tl =>
      if x = c then [] :: fieldHd :: tl
      else (x :: fieldHd) :: tl

/-- Parse a nonempty all-digit character list as a natural number. -/
def parseNatDigits (l : List Char) : Option Nat :=
  if l = [] then none
  else
    l.foldl
      (fun acc c =>
        acc.bind (fun n =>
          if c.isDigit then some (n * 10 + (c.toNat - 48)) else none))
      (some 0)

/-- Day-first timestamp parsing (`pd.to_datetime(..., dayfirst=True)`),
abstracted to a `day/month/year [time]` shape: the first field is the day
(1..31), the second the month (1..12); the result encodes the date and a
failure is `none` (with `errors="coerce"` a failure becomes NaT instead
of an exception). -/
def parseDayFirst (s : String) : Option Nat :=
  match splitOnChar '/' s.toList with
  | [d, m, rest] =>
    match parseNatDigits d, parseNatDigits m,
        parseNatDigits (rest.takeWhile (fun c => c ≠ ' ')) with
    | some dd, some mm, some yy =>
      if 1 ≤ dd ∧ dd ≤ 31 ∧ 1 ≤ mm ∧ mm ≤ 12 then
        some (yy * 10000 + mm * 100 + dd)
      else none
    | _, _, _ => none
  | _ => none

/-- The timestamp coercion applied to one row: only the timestamp column
changes, every other column is kept unchanged. -/
def to_datetime_coerce (r : RawRow) : Row :=
  { timestamp := parseDayFirst r.timestamp, hour := r.hour, day := r.day,
    location := r.location, charger_type := r.charger_type,
    kWh_used := r.kWh_used, estimated_cost_RM := r.estimated_cost_RM }

/-- `load_data`: read the CSV rows and coerce the timestamp column of
every row; no row is dropped. -/
def load_data (raw : List RawRow) : Dataset :=
  raw.map to_datetime_coerce

/-- C8: during loading, a row whose timestamp string does not parse under
the day-first convention gets a null (`none`) timestamp instead of making
the load raise, and the row is retained at its position with every other
column unchanged, so it still participates in all other aggregations. -/
theorem load_data_coerces_bad_timestamp (raw : List RawRow) (r : RawRow)
    (i : Nat) (hr : raw[i]? = some r)
    (hbad : parseDayFirst r.timestamp = none) :
    (load_data raw).length = raw.length ∧
    (load_data raw)[i]? = some (to_datetime_coerce r) ∧
    (to_datetime_coerce r).timestamp = none ∧
    (to_datetime_coerce r).hour = r.hour ∧
    (to_datetime_coerce r).day = r.day ∧
    (to_datetime_coerce r).location = r.location ∧
    (to_datetime_coerce r).charger_type = r.charger_type ∧
    (to_datetime_coerce r).kWh_used = r.kWh_used ∧
    (to_datetime_coerce r).estimated_cost_RM = r.estimated_cost_RM := by
  refine ⟨by simp [load_data], ?_, hbad, rfl, rfl, rfl, rfl, rfl, rfl⟩
  rw [load_data, List.getElem?_map, hr, Option.map_some']

/-- A raw row whose timestamp string cannot be parsed. -/
def badRawRow : RawRow :=
  { timestamp := "not a date", hour := 7, day := "Monday",
    location := "Penang", charger_type := "Normal Charger",
    kWh_used := 4, estimated_cost_RM := 2 }

/-- Witness for C8 on a one-row CSV whose timestamp is unparsable. -/
theorem load_data_coerces_bad_timestamp_witness :
    [badRawRow][0]? = some badRawRow ∧
    parseDayFirst badRawRow.timestamp = none ∧
    ((load_data [badRawRow]).length = [badRawRow].length ∧
      (load_data [badRawRow])[0]? = some (to_datetime_coerce badRawRow) ∧
      (to_datetime_coerce badRawRow).timestamp = none ∧
      (to_datetime_coerce badRawRow).hour = badRawRow.hour ∧
      (to_datetime_coerce badRawRow).day = badRawRow.day ∧
      (to_datetime_coerce badRawRow).location = badRawRow.location ∧
      (to_datetime_coerce badRawRow).charger_type = badRawRow.charger_type ∧
      (to_datetime_coerce badRawRow).kWh_used = badRawRow.kWh_used ∧
      (to_datetime_coerce badRawRow).estimated_cost_RM =
        badRawRow.estimated_cost_RM) :=
  ⟨rfl, by decide,
    load_data_coerces_bad_timestamp [badRawRow] badRawRow 0 rfl (by decide)⟩
